import Mathlib

/-!
Verification development for the lazydb application-state engine
(src/app.rs, src/event.rs).  The Rust state machine is shallowly embedded:
structs become Lean structures, enums become inductives, `usize`/`u64`
become `Nat`, `i64` becomes `Int` (with explicit two's-complement wrap
where the code casts), `VecDeque` becomes `List` (front = head),
`Option`/`Result` become `Option`/`Except`.  External collaborators
(terminal widgets, the database pool, wall-clock instants, tokio task
handles) are modelled as opaque data or effect logs, as the spec declares
them out of scope; spawned background work is recorded in effect-log
fields so that "no work was issued" is provable as state equality.
-/

namespace LazyDB

/-- `PAGE_SIZE` constant from app.rs. -/
def PAGE_SIZE : Nat := 50

/-- `MAX_HISTORY` constant from app.rs. -/
def MAX_HISTORY : Nat := 20

/-- `DEFAULT_VISIBLE_ROWS` constant from app.rs. -/
def DEFAULT_VISIBLE_ROWS : Nat := 15

/-- `SPARKLINE_MAX_POINTS` constant from app.rs. -/
def SPARKLINE_MAX_POINTS : Nat := 60

/-- Key modifiers (crossterm `KeyModifiers` bitflags, restricted to the
flags the code inspects: CONTROL, SHIFT, SUPER, ALT). -/
structure KeyModifiers where
  ctrl : Bool
  shift : Bool
  super : Bool
  alt : Bool
deriving DecidableEq

/-- `KeyModifiers::empty()`. -/
def KeyModifiers.none : KeyModifiers := ⟨false, false, false, false⟩

/-- `KeyModifiers::CONTROL` (exactly the control flag). -/
def KeyModifiers.ctrlOnly : KeyModifiers := ⟨true, false, false, false⟩

/-- Key codes (crossterm `KeyCode`, restricted to the variants the code
matches on). -/
inductive KeyCode where
  | Up | Down | Left | Right
  | PageUp | PageDown | Home | End
  | Enter | Esc | Tab | BackTab
  | F (n : Nat)
  | Char (c : Char)
deriving DecidableEq

/-- A key press event (crossterm `KeyEvent` with `kind = Press`). -/
structure KeyEvent where
  code : KeyCode
  modifiers : KeyModifiers
deriving DecidableEq

/-- `TreeNodeId` from app.rs. -/
inductive TreeNodeId where
  | Root
  | Schema (name : String)
  | Table (schema : String) (table : String)
  | Column (schema : String) (table : String) (column : String)
deriving DecidableEq

/-- `DbColumn` from event.rs (via app.rs usage). -/
structure DbColumn where
  name : String
  data_type : String
  is_nullable : Bool
  is_primary_key : Bool
  ordinal_position : Int
deriving DecidableEq

/-- `DbTable`. -/
structure DbTable where
  name : String
  columns : List DbColumn
deriving DecidableEq

/-- `DbSchema`. -/
structure DbSchema where
  name : String
  tables : List DbTable
deriving DecidableEq

/-- `DatabaseStructure`. -/
structure DatabaseStructure where
  schemas : List DbSchema
deriving DecidableEq

/-- `TableDataResult` from event.rs. -/
structure TableDataResult where
  table_name : String
  columns : List String
  rows : List (List String)
  total_count : Int
  page : Nat
deriving DecidableEq

/-- `QueryResult` from event.rs (`duration_ms : u128` becomes `Nat`). -/
structure QueryResult where
  query : String
  columns : List String
  rows : List (List String)
  row_count : Nat
  duration_ms : Nat
  is_explain : Bool
deriving DecidableEq

/-- `StatsUpdate` from event.rs. -/
structure StatsUpdate where
  pg_version : String
  total_rows : Int
deriving DecidableEq

/-- `AppEvent` from event.rs.  `ConnectionResult`'s success payload is the
database name; the `PgPool` handle is an external resource and carries no
state the dispatcher reads beyond its presence. -/
inductive AppEvent where
  | Quit
  | ConnectionResult (result : Except String String)
  | TablesLoaded (tables : List String)
  | SchemaLoaded (s : DatabaseStructure)
  | TableDataLoaded (result : Except String TableDataResult)
  | QueryExecuted (result : Except String QueryResult)
  | StatsUpdated (update : StatsUpdate)
  | SparklineTick (pool_size : Nat)

/-- Rust `usize::div_ceil`: `self / rhs + (self % rhs != 0)`. -/
def rustDivCeil (a b : Nat) : Nat :=
  a / b + (if a % b = 0 then 0 else 1)

/-- Rust `i64 as usize`: two's-complement reinterpretation, i.e. the value
modulo 2^64 (for an in-range i64, a negative value wraps to a huge Nat). -/
def i64AsUsize (i : Int) : Nat := (i % (2 ^ 64 : Int)).toNat

/-- `TableViewState` from app.rs (`total_count : i64` becomes `Int`). -/
structure TableViewState where
  table_name : String
  columns : List String
  rows : List (List String)
  total_count : Int
  page : Nat
  selected_row : Nat
  scroll_offset : Nat
  loading : Bool
  error : Option String
deriving DecidableEq

/-- `total_pages` computed from a raw count, as in
`TableViewState::total_pages`. -/
def totalPagesOfCount (c : Int) : Nat :=
  if c = 0 then 1 else rustDivCeil (i64AsUsize c) PAGE_SIZE

/-- `TableViewState::total_pages`. -/
def TableViewState.total_pages (s : TableViewState) : Nat :=
  totalPagesOfCount s.total_count

/-- `TableViewState::ensure_visible` (saturating_sub is Nat subtraction). -/
def TableViewState.ensure_visible (s : TableViewState) (visible_rows : Nat) :
    TableViewState :=
  if visible_rows = 0 then s
  else
    let s := if s.selected_row < s.scroll_offset
             then { s with scroll_offset := s.selected_row } else s
    if s.scroll_offset + visible_rows ≤ s.selected_row
    then { s with scroll_offset := s.selected_row - (visible_rows - 1) }
    else s

/-- `QueryResultState` from app.rs. -/
structure QueryResultState where
  columns : List String
  rows : List (List String)
  row_count : Nat
  duration_ms : Nat
  is_explain : Bool
  selected_row : Nat
  scroll_offset : Nat
  error : Option String
deriving DecidableEq

/-- `QueryResultState::ensure_visible`. -/
def QueryResultState.ensure_visible (s : QueryResultState) (visible_rows : Nat) :
    QueryResultState :=
  if visible_rows = 0 then s
  else
    let s := if s.selected_row < s.scroll_offset
             then { s with scroll_offset := s.selected_row } else s
    if s.scroll_offset + visible_rows ≤ s.selected_row
    then { s with scroll_offset := s.selected_row - (visible_rows - 1) }
    else s

/-- `StatsState` from app.rs.  `session_start : Instant` is wall-clock
state with no observable content for the claims and is omitted; the four
`VecDeque<u64>` series are lists with the front at the head. -/
structure StatsState where
  host : String
  database : String
  pg_version : String
  table_count : Nat
  total_rows : Int
  last_query_ms : Option Nat
  queries_run : Nat
  queries_per_sec : List Nat
  rows_per_sec : List Nat
  latency_ms : List Nat
  connections : List Nat
  queries_this_second : Nat
  rows_this_second : Nat
deriving DecidableEq

/-- `StatsState::push_sparkline`: pop the front when full, push at the back. -/
def pushSparkline (deque : List Nat) (value : Nat) : List Nat :=
  let deque := if SPARKLINE_MAX_POINTS ≤ deque.length then deque.tail else deque
  deque ++ [value]

/-- `StatsState::record_query`. -/
def StatsState.record_query (s : StatsState) (duration_ms row_count : Nat) :
    StatsState :=
  { s with
    queries_run := s.queries_run + 1
    last_query_ms := some duration_ms
    queries_this_second := s.queries_this_second + 1
    rows_this_second := s.rows_this_second + row_count }

/-- `StatsState::tick_second`. -/
def StatsState.tick_second (s : StatsState) (pool_size : Nat) : StatsState :=
  { s with
    queries_per_sec := pushSparkline s.queries_per_sec s.queries_this_second
    rows_per_sec := pushSparkline s.rows_per_sec s.rows_this_second
    latency_ms := pushSparkline s.latency_ms (s.last_query_ms.getD 0)
    connections := pushSparkline s.connections pool_size
    queries_this_second := 0
    rows_this_second := 0 }

/-- `ConnectionState`; the `PgPool` handle in `Connected` is external and
not modelled beyond the database name. -/
inductive ConnectionState where
  | Connecting
  | Connected (db_name : String)
  | Failed (error : String)
deriving DecidableEq

/-- `CurrentView`. -/
inductive CurrentView where
  | ConnectionStatus
  | TableList
  | TableView (state : TableViewState)
deriving DecidableEq

/-- Whether the view is a table view (used by `matches!` checks). -/
def CurrentView.isTableView : CurrentView → Bool
  | .TableView _ => true
  | _ => false

/-- `FocusedPane`. -/
inductive FocusedPane where
  | Sidebar | Stats | Logs | Results | Editor
deriving DecidableEq

/-- `FocusedPane::next`. -/
def FocusedPane.next : FocusedPane → FocusedPane
  | .Sidebar => .Stats
  | .Stats => .Results
  | .Results => .Editor
  | .Editor => .Logs
  | .Logs => .Sidebar

/-- `FocusedPane::prev`. -/
def FocusedPane.prev : FocusedPane → FocusedPane
  | .Sidebar => .Logs
  | .Stats => .Sidebar
  | .Results => .Stats
  | .Editor => .Results
  | .Logs => .Editor

/-!
## Editor model and Rust string helpers

The SQL text-editing widget (`tui_textarea::TextArea`) is an external
collaborator (spec section 1 and 6): its contents are a non-empty list of
newline-free lines with a cursor.  Key handling inside the widget is kept
abstract (`EditorOps`); the operations the application performs itself
(`TextArea::new`, `lines()`, `cursor()`) are modelled concretely.
-/

/-- The observable state of the `tui_textarea::TextArea` widget. -/
structure Editor where
  lines : List String
  cursor_row : Nat
  cursor_col : Nat
deriving DecidableEq

/-- `TextArea::new(lines)`: an empty vector is normalised to one empty
line; the cursor starts at the top-left. -/
def textAreaNew (lines : List String) : Editor :=
  { lines := if lines = [] then [""] else lines, cursor_row := 0, cursor_col := 0 }

/-- Abstract widget-internal operations (`input`, `move_cursor`,
`insert_str`): the application calls them but never inspects how they act. -/
structure EditorOps where
  input : KeyEvent → Editor → Editor
  moveUp : Editor → Editor
  moveDown : Editor → Editor
  moveTop : Editor → Editor
  moveBottom : Editor → Editor
  insertStr : String → Editor → Editor

/-- Editor ops that leave the widget untouched (used to instantiate
theorems whose conclusion is independent of the widget). -/
def inertEditorOps : EditorOps :=
  { input := fun _ e => e, moveUp := id, moveDown := id,
    moveTop := id, moveBottom := id, insertStr := fun _ e => e }

/-- Split a character list at every newline, keeping empty segments
(`"a\n"` gives `["a", ""]` before the final-segment drop below). -/
def splitNl : List Char → List (List Char)
  | [] => [[]]
  | c :: cs =>
    if c = '\n' then [] :: splitNl cs
    else
      match splitNl cs with
      | [] => [[c]]
      | t :: ts => (c :: t) :: ts

/-- Strip one trailing carriage return, as Rust `lines()` does per line. -/
def stripTrailingCr (l : List Char) : List Char :=
  match l.reverse with
  | '\r' :: rest => rest.reverse
  | _ => l

/-- Rust `str::lines().collect()`: split on newline, strip a trailing
carriage return from each line, and omit a final empty segment (so a
trailing newline produces no extra line and `""` produces no lines). -/
def rustLines (s : String) : List String :=
  let parts := (splitNl s.toList).map (fun l => String.mk (stripTrailingCr l))
  match parts.reverse with
  | last :: _ => if last = "" then parts.dropLast else parts
  | [] => parts

/-- `lines().join("\n")` on the textarea contents. -/
def joinLines (lines : List String) : String :=
  String.mk (List.intercalate ['\n'] (lines.map String.toList))

/-- ASCII whitespace test (Rust `char::is_whitespace` restricted to the
characters that occur in terminal input). -/
def isWhiteChar (c : Char) : Bool :=
  c = ' ' ∨ c = '\t' ∨ c = '\n' ∨ c = '\r'

/-- Rust `str::trim`. -/
def rustTrim (s : String) : String :=
  String.mk (((s.toList.dropWhile isWhiteChar).reverse.dropWhile isWhiteChar).reverse)

/-- Rust `Iterator::position`: index of the first element satisfying the
predicate. -/
def listPosition (p : α → Bool) : List α → Option Nat
  | [] => none
  | x :: xs => if p x then some 0 else (listPosition p xs).map (· + 1)

/-!
## The application state

`App` from app.rs.  Task handles (`stats_handle`, `schema_handle`) are
modelled as booleans recording whether the task was started;
`query_start_time : Option<Instant>` keeps only its presence;
`logs_state : TuiWidgetState` (external log widget) is modelled as the
list of key codes forwarded to it; spawned one-shot background work
(page fetches, query executions, manual schema refreshes) is recorded in
effect-log fields, since tasks communicate with the dispatcher only by
events.
-/

structure App where
  running : Bool
  connection : ConnectionState
  database_url : String
  current_view : CurrentView
  tables : List String
  selected_table_index : Nat
  sidebar_scroll_offset : Nat
  stats_task_started : Bool
  schema_task_started : Bool
  focused_pane : FocusedPane
  sql_editor : Editor
  editor_scroll_offset : Nat
  query_history : List String
  history_index : Option Nat
  saved_editor_content : Option String
  query_executing : Bool
  query_start_time : Option Unit
  query_result : Option QueryResultState
  show_query_results : Bool
  stats : StatsState
  stats_scroll_offset : Nat
  logs_forwarded : List KeyCode
  db_structure : Option DatabaseStructure
  tree_selected : List TreeNodeId
  tree_opened : List (List TreeNodeId)
  selected_table : Option (String × String)
  spawned_fetches : List (String × Nat)
  spawned_queries : List String
  spawned_schema_refreshes : Nat
deriving DecidableEq

/-- `TreeState::open`: inserts a non-empty path into the open set. -/
def treeOpen (opened : List (List TreeNodeId)) (p : List TreeNodeId) :
    List (List TreeNodeId) :=
  if p = [] ∨ p ∈ opened then opened else opened ++ [p]

/-- `TreeState::close`: removes a path from the open set. -/
def treeClose (opened : List (List TreeNodeId)) (p : List TreeNodeId) :
    List (List TreeNodeId) :=
  opened.filter (fun q => ¬ q = p)

/-!
## Tree navigation (`App::get_visible_tree_paths`, `App::tree_navigate`, …)
-/

/-- `App::get_visible_tree_paths`: root first; a node's children are
listed only when its own path is in the open set; no structure yields no
paths. -/
def get_visible_tree_paths (a : App) : List (List TreeNodeId) :=
  match a.db_structure with
  | none => []
  | some s =>
    let opened := a.tree_opened
    let root_path := [TreeNodeId.Root]
    if root_path ∈ opened then
      root_path :: s.schemas.flatMap (fun sc =>
        let schema_path := [TreeNodeId.Root, TreeNodeId.Schema sc.name]
        schema_path :: (if schema_path ∈ opened then
          sc.tables.flatMap (fun t =>
            let table_path := [TreeNodeId.Root, TreeNodeId.Schema sc.name,
                               TreeNodeId.Table sc.name t.name]
            table_path :: (if table_path ∈ opened then
              t.columns.map (fun c =>
                [TreeNodeId.Root, TreeNodeId.Schema sc.name,
                 TreeNodeId.Table sc.name t.name,
                 TreeNodeId.Column sc.name t.name c.name])
            else []))
        else []))
    else [root_path]

/-- The index arithmetic of `App::tree_navigate`: saturating move by
`delta` from `cur`, clamped to the end of a `len`-element list. -/
def tree_nav_index (cur len : Nat) (delta : Int) : Nat :=
  if delta < 0 then cur - delta.natAbs
  else min (cur + delta.natAbs) (len - 1)

/-- `App::tree_navigate`: move the selection by `delta` within the
visible list; a selection that is not in the list counts as position 0. -/
def tree_navigate (a : App) (delta : Int) : App :=
  if get_visible_tree_paths a = [] then a
  else
    match (get_visible_tree_paths a)[tree_nav_index
        ((listPosition (fun p => decide (p = a.tree_selected))
          (get_visible_tree_paths a)).getD 0)
        (get_visible_tree_paths a).length delta]? with
    | some new_path => { a with tree_selected := new_path }
    | none => a

/-- `App::tree_collapse`. -/
def tree_collapse (a : App) : App :=
  let selected := a.tree_selected
  if selected = [] then a
  else if selected ∈ a.tree_opened then
    { a with tree_opened := treeClose a.tree_opened selected }
  else if 1 < selected.length then
    { a with tree_selected := selected.dropLast }
  else a

/-- `App::fetch_table_data`: only spawns the page fetch when connected;
the spawned request is recorded in the effect log. -/
def fetch_table_data (a : App) (table_name : String) (page : Nat) : App :=
  match a.connection with
  | .Connected _ => { a with spawned_fetches := a.spawned_fetches ++ [(table_name, page)] }
  | _ => a

/-- `App::open_schema_table`. -/
def open_schema_table (a : App) (schema table : String) : App :=
  let a : App :=
    { a with show_query_results := false, selected_table := some (schema, table) }
  let full_name := if schema = "public" then table else schema ++ "." ++ table
  let fresh : TableViewState :=
    { table_name := full_name, columns := [], rows := [], total_count := 0,
      page := 0, selected_row := 0, scroll_offset := 0, loading := true,
      error := none }
  let a : App := { a with current_view := CurrentView.TableView fresh }
  fetch_table_data a full_name 0

/-- `App::refresh_schema`: spawns a one-shot structure fetch when
connected. -/
def refresh_schema (a : App) : App :=
  match a.connection with
  | .Connected _ => { a with spawned_schema_refreshes := a.spawned_schema_refreshes + 1 }
  | _ => a

/-- `App::tree_expand_or_open` (needs the abstract widget op for the
column-name insertion). -/
def tree_expand_or_open (ops : EditorOps) (a : App) : App :=
  let selected := a.tree_selected
  if selected = [] then a
  else
    let is_expanded := selected ∈ a.tree_opened
    match selected.getLast? with
    | some .Root | some (.Schema _) =>
      if is_expanded then tree_navigate a 1
      else { a with tree_opened := treeOpen a.tree_opened selected }
    | some (.Table s t) =>
      if is_expanded then
        { open_schema_table a s t with focused_pane := FocusedPane.Results }
      else { a with tree_opened := treeOpen a.tree_opened selected }
    | some (.Column _ _ c) =>
      { a with sql_editor := ops.insertStr c a.sql_editor,
               focused_pane := FocusedPane.Editor }
    | none => a

/-- `App::handle_tree_enter`. -/
def handle_tree_enter (ops : EditorOps) (a : App) : App :=
  let selected := a.tree_selected
  if selected = [] then a
  else
    let is_open := selected ∈ a.tree_opened
    match selected.getLast? with
    | some .Root | some (.Schema _) =>
      if is_open then { a with tree_opened := treeClose a.tree_opened selected }
      else { a with tree_opened := treeOpen a.tree_opened selected }
    | some (.Table s t) =>
      if is_open then
        { open_schema_table a s t with focused_pane := FocusedPane.Results }
      else { a with tree_opened := treeOpen a.tree_opened selected }
    | some (.Column _ _ c) =>
      { a with sql_editor := ops.insertStr c a.sql_editor,
               focused_pane := FocusedPane.Editor }
    | none => a

/-!
## Query execution and history (`App::execute_query`,
`App::navigate_history_up`, `App::navigate_history_down`)
-/

/-- `App::execute_query`: trimmed non-empty text is pushed onto the
history (if different from the most recent entry, bounded), browse state
is reset, and — when connected — the executing flag is set and one
execution is spawned. -/
def execute_query (a : App) : App :=
  let query := rustTrim (joinLines a.sql_editor.lines)
  if query = "" then a
  else
    let a : App :=
      if a.query_history.head? ≠ some query then
        let h := query :: a.query_history
        { a with query_history := if MAX_HISTORY < h.length then h.dropLast else h }
      else a
    let a : App := { a with history_index := none, saved_editor_content := none }
    match a.connection with
    | .Connected _ =>
      { a with query_executing := true, query_start_time := some (),
               spawned_queries := a.spawned_queries ++ [query] }
    | _ => a

/-- `App::navigate_history_up`: snapshot the editor on entering browse
mode, then move the index towards older entries, clamped. -/
def navigate_history_up (a : App) : App :=
  if a.query_history = [] then a
  else
    let a : App :=
      if a.history_index = none then
        { a with saved_editor_content := some (joinLines a.sql_editor.lines) }
      else a
    let new_index :=
      match a.history_index with
      | none => 0
      | some i => min (i + 1) (a.query_history.length - 1)
    let a : App := { a with history_index := some new_index }
    match a.query_history[new_index]? with
    | some query => { a with sql_editor := textAreaNew (rustLines query) }
    | none => a

/-- `App::navigate_history_down`: move towards newer entries; leaving
index 0 restores the snapshot and exits browse mode. -/
def navigate_history_down (a : App) : App :=
  match a.history_index with
  | none => a
  | some 0 =>
    let a : App := { a with history_index := none }
    match a.saved_editor_content with
    | some content =>
      { a with saved_editor_content := none,
               sql_editor := textAreaNew (rustLines content) }
    | none => a
  | some (i + 1) =>
    let a : App := { a with history_index := some i }
    match a.query_history[i]? with
    | some query => { a with sql_editor := textAreaNew (rustLines query) }
    | none => a

/-!
## App-event handling (`App::handle_app_event`)
-/

/-- `AppEvent::SchemaLoaded` branch. -/
def handle_schema_loaded (a : App) (s : DatabaseStructure) : App :=
  let table_count := (s.schemas.map (fun sc => sc.tables.length)).sum
  let a : App := { a with stats := { a.stats with table_count := table_count } }
  let tables : List String :=
    match s.schemas.find? (fun sc => decide (sc.name = "public")) with
    | some sc => sc.tables.map (fun t => t.name)
    | none => []
  let a : App := { a with tables := tables }
  let a : App := { a with db_structure := some s }
  let a : App :=
    if a.tree_selected = [] then
      { a with tree_selected := [TreeNodeId.Root],
               tree_opened := treeOpen
                 (treeOpen a.tree_opened [TreeNodeId.Root])
                 [TreeNodeId.Root, TreeNodeId.Schema "public"] }
    else a
  if a.schema_task_started = false then { a with schema_task_started := true }
  else a

/-- `AppEvent::TableDataLoaded` branch: a successful result is applied
only when its (table, page) identity matches the current view; a failed
result sets the error on whatever table view is current. -/
def handle_table_data_loaded (a : App) (result : Except String TableDataResult) :
    App :=
  match a.current_view with
  | .TableView state =>
    match result with
    | .ok data =>
      if state.table_name = data.table_name ∧ state.page = data.page then
        let state := { state with
          columns := data.columns
          rows := data.rows
          total_count := data.total_count
          loading := false
          error := none }
        let state :=
          if data.rows.length ≤ state.selected_row ∧ data.rows ≠ [] then
            { state with selected_row := data.rows.length - 1 }
          else state
        { a with current_view := CurrentView.TableView state }
      else a
    | .error e =>
      let state := { state with loading := false, error := some e }
      { a with current_view := CurrentView.TableView state }
  | _ => a

/-- `AppEvent::QueryExecuted` branch. -/
def handle_query_executed (a : App) (result : Except String QueryResult) : App :=
  let a : App := { a with query_executing := false, query_start_time := none }
  let a : App :=
    match result with
    | .ok qr =>
      let okState : QueryResultState :=
        { columns := qr.columns, rows := qr.rows, row_count := qr.row_count,
          duration_ms := qr.duration_ms, is_explain := qr.is_explain,
          selected_row := 0, scroll_offset := 0, error := none }
      { a with stats := a.stats.record_query qr.duration_ms qr.row_count,
               query_result := some okState }
    | .error e =>
      let errState : QueryResultState :=
        { columns := [], rows := [], row_count := 0, duration_ms := 0,
          is_explain := false, selected_row := 0, scroll_offset := 0,
          error := some e }
      { a with stats := { a.stats with queries_run := a.stats.queries_run + 1 },
               query_result := some errState }
  { a with show_query_results := true }

/-- `App::handle_app_event`.  `ConnectionResult(Ok)` spawns the initial
structure fetch and the stats poller (recorded as flags). -/
def handle_app_event (a : App) (event : AppEvent) : App :=
  match event with
  | .Quit => { a with running := false }
  | .ConnectionResult result =>
    match result with
    | .ok db_name =>
      { a with stats := { a.stats with database := db_name },
               stats_task_started := true,
               connection := ConnectionState.Connected db_name,
               current_view := CurrentView.TableList }
    | .error e =>
      { a with connection := ConnectionState.Failed e,
               current_view := CurrentView.ConnectionStatus }
  | .TablesLoaded new_tables =>
    if a.tables ≠ new_tables then
      let previously_selected := a.tables[a.selected_table_index]?
      let tables := new_tables
      let idx :=
        match previously_selected with
        | some name => (listPosition (fun t => decide (t = name)) tables).getD 0
        | none => 0
      { a with tables := tables, selected_table_index := idx }
    else a
  | .SchemaLoaded s => handle_schema_loaded a s
  | .TableDataLoaded result => handle_table_data_loaded a result
  | .QueryExecuted result => handle_query_executed a result
  | .StatsUpdated update =>
    { a with stats := { a.stats with
        pg_version := update.pg_version,
        total_rows := update.total_rows,
        table_count := a.tables.length } }
  | .SparklineTick pool_size =>
    { a with stats := a.stats.tick_second pool_size }

/-!
## List navigation and the results pane
-/

/-- The `Up | Char('k')` arm of `handle_list_navigation`: move up with
wrap-around; wrapping to the bottom explicitly resets the offset. -/
def nav_up_step (sel off len : Nat) : Nat × Nat :=
  let s := if 0 < sel then sel - 1 else len - 1
  (s, if s = len - 1 then len - DEFAULT_VISIBLE_ROWS else off)

/-- The `Down | Char('j')` arm of `handle_list_navigation`: advance with
wrap-around; wrapping to the top explicitly resets the offset. -/
def nav_down_step (sel off len : Nat) : Nat × Nat :=
  let s := if sel < len - 1 then sel + 1 else 0
  (s, if s = 0 then 0 else off)

/-- The per-key part of `handle_list_navigation`: the new selection and
the pre-adjustment scroll offset, or `none` for keys the function
ignores.  `len` is the row count (callers guarantee it is positive). -/
def list_nav_step (code : KeyCode) (sel off len : Nat) : Option (Nat × Nat) :=
  match code with
  | .Up => some (nav_up_step sel off len)
  | .Down => some (nav_down_step sel off len)
  | .PageUp => some (sel - DEFAULT_VISIBLE_ROWS, off)
  | .PageDown => some (min (sel + DEFAULT_VISIBLE_ROWS) (len - 1), off)
  | .Home => some (0, 0)
  | .End => some (len - 1, len - DEFAULT_VISIBLE_ROWS)
  | .Char c =>
    if c = 'k' then some (nav_up_step sel off len)
    else if c = 'j' then some (nav_down_step sel off len)
    else none
  | _ => none

/-- The trailing scroll-window adjustment of `handle_list_navigation`
(and of `ensure_visible` with the default viewport). -/
def scroll_adjust (sel off : Nat) : Nat :=
  if (if sel < off then sel else off) + DEFAULT_VISIBLE_ROWS ≤ sel
  then sel - (DEFAULT_VISIBLE_ROWS - 1)
  else if sel < off then sel else off

/-- `handle_list_navigation` from app.rs: returns the updated
(selection, scroll offset). -/
def handle_list_navigation (code : KeyCode) (sel off len : Nat) : Nat × Nat :=
  match list_nav_step code sel off len with
  | none => (sel, off)
  | some (s, o) => (s, scroll_adjust s o)

/-- The list-navigation prefix of the table-view branch of
`App::handle_results_keys`. -/
def nav_rows (st : TableViewState) (code : KeyCode) : TableViewState :=
  if st.rows ≠ [] then
    let p := handle_list_navigation code st.selected_row st.scroll_offset st.rows.length
    { st with selected_row := p.1, scroll_offset := p.2 }
  else st

/-- The guarded `Left | Char('h')` page turn of `handle_results_keys`. -/
def page_left_step (st : TableViewState) : TableViewState × Option (String × Nat) :=
  if 0 < st.page ∧ st.loading = false then
    ({ st with page := st.page - 1, loading := true,
               selected_row := 0, scroll_offset := 0 },
     some (st.table_name, st.page - 1))
  else (st, none)

/-- The guarded `Right | Char('l')` page turn of `handle_results_keys`. -/
def page_right_step (st : TableViewState) : TableViewState × Option (String × Nat) :=
  if st.page < st.total_pages - 1 ∧ st.loading = false then
    ({ st with page := st.page + 1, loading := true,
               selected_row := 0, scroll_offset := 0 },
     some (st.table_name, st.page + 1))
  else (st, none)

/-- The table-view part of `App::handle_results_keys`: list navigation
first, then a guarded page turn; returns the updated state and the page
fetch to issue, if any. -/
def results_table_step (st : TableViewState) (code : KeyCode) :
    TableViewState × Option (String × Nat) :=
  match code with
  | .Left => page_left_step (nav_rows st code)
  | .Right => page_right_step (nav_rows st code)
  | .Char c =>
    if c = 'h' then page_left_step (nav_rows st code)
    else if c = 'l' then page_right_step (nav_rows st code)
    else (nav_rows st code, none)
  | _ => (nav_rows st code, none)

/-- `App::handle_results_keys`. -/
def handle_results_keys (a : App) (k : KeyEvent) : App :=
  if k.code = .Char 'c' ∧ a.show_query_results = true then
    { a with show_query_results := false, query_result := none }
  else if (k.code = .Char 'b' ∨ k.code = .Esc) ∧ a.current_view.isTableView = true then
    { a with current_view := CurrentView.TableList, show_query_results := false,
             focused_pane := FocusedPane.Sidebar }
  else if k.code = .Char 'q' then { a with running := false }
  else if a.show_query_results = true then
    match a.query_result with
    | some qr =>
      if qr.rows ≠ [] then
        let p := handle_list_navigation k.code qr.selected_row qr.scroll_offset qr.rows.length
        { a with query_result := some { qr with selected_row := p.1, scroll_offset := p.2 } }
      else a
    | none => a
  else
    match a.current_view with
    | .TableView st =>
      match (results_table_step st k.code).2 with
      | some (table_name, page) =>
        fetch_table_data
          { a with current_view := CurrentView.TableView (results_table_step st k.code).1 }
          table_name page
      | none =>
        { a with current_view := CurrentView.TableView (results_table_step st k.code).1 }
    | _ => a

/-- `App::scroll_results` (mouse wheel): clamp-move the selection by
`delta` and re-establish visibility with the default viewport. -/
def scroll_results (a : App) (delta : Int) : App :=
  if a.show_query_results = true then
    match a.query_result with
    | some qr =>
      if qr.rows ≠ [] then
        let sel :=
          if delta < 0 then qr.selected_row - delta.natAbs
          else min (qr.selected_row + delta.natAbs) (qr.rows.length - 1)
        let qr := QueryResultState.ensure_visible { qr with selected_row := sel }
          DEFAULT_VISIBLE_ROWS
        { a with query_result := some qr }
      else a
    | none => a
  else
    match a.current_view with
    | .TableView st =>
      if st.rows ≠ [] then
        let sel :=
          if delta < 0 then st.selected_row - delta.natAbs
          else min (st.selected_row + delta.natAbs) (st.rows.length - 1)
        let st := TableViewState.ensure_visible { st with selected_row := sel }
          DEFAULT_VISIBLE_ROWS
        { a with current_view := CurrentView.TableView st }
      else a
    | _ => a

/-!
## Sidebar, logs and editor key handling
-/

/-- `App::handle_sidebar_keys`. -/
def handle_sidebar_keys (ops : EditorOps) (a : App) (k : KeyEvent) : App :=
  match k.code with
  | .Esc | .Char 'q' => { a with running := false }
  | .Up | .Char 'k' => tree_navigate a (-1)
  | .Down | .Char 'j' => tree_navigate a 1
  | .Left | .Char 'h' => tree_collapse a
  | .Right | .Char 'l' => tree_expand_or_open ops a
  | .Enter | .Char ' ' => handle_tree_enter ops a
  | .Char 'r' => refresh_schema a
  | .PageUp => tree_navigate a (-(DEFAULT_VISIBLE_ROWS : Int))
  | .PageDown => tree_navigate a (DEFAULT_VISIBLE_ROWS : Int)
  | .Home =>
    match (get_visible_tree_paths a).head? with
    | some first => { a with tree_selected := first }
    | none => a
  | .End =>
    match (get_visible_tree_paths a).getLast? with
    | some last => { a with tree_selected := last }
    | none => a
  | _ => a

/-- Whether `handle_logs_keys` forwards this key to the log widget. -/
def isLogsWidgetKey (code : KeyCode) : Bool :=
  match code with
  | .Up | .Down | .PageUp | .PageDown | .Left | .Right | .Esc | .Home => true
  | .Char c => c = 'k' ∨ c = 'j' ∨ c = 'h' ∨ c = 'l' ∨ c = '+' ∨ c = '-' ∨ c = ' '
  | _ => false

/-- `App::handle_logs_keys`: `q` quits, the rest is forwarded to the
external log widget (recorded as an event log). -/
def handle_logs_keys (a : App) (k : KeyEvent) : App :=
  if k.code = .Char 'q' then { a with running := false }
  else if isLogsWidgetKey k.code then
    { a with logs_forwarded := a.logs_forwarded ++ [k.code] }
  else a

/-- `App::update_editor_scroll`. -/
def update_editor_scroll (a : App) : App :=
  let cursor_row := a.sql_editor.cursor_row
  let visible_rows := DEFAULT_VISIBLE_ROWS - 2
  let off := if cursor_row < a.editor_scroll_offset then cursor_row
             else a.editor_scroll_offset
  let off := if off + visible_rows ≤ cursor_row
             then cursor_row - (visible_rows - 1) else off
  { a with editor_scroll_offset := off }

/-- `App::scroll_editor` (mouse wheel on the editor pane). -/
def scroll_editor (ops : EditorOps) (a : App) (delta : Int) : App :=
  if a.sql_editor.lines = [] then a
  else
    let move := if delta < 0 then ops.moveUp else ops.moveDown
    update_editor_scroll { a with sql_editor := Nat.iterate move delta.natAbs a.sql_editor }

/-- `is_execute_key_combo` from app.rs. -/
def is_execute_key_combo (k : KeyEvent) : Bool :=
  match k.code with
  | .Enter => k.modifiers.ctrl ∨ k.modifiers.super ∨ k.modifiers.shift
  | .Char c => (c = 'j' ∨ c = 'J') ∧ k.modifiers.ctrl
  | .F n => n = 5
  | _ => false

/-- `App::handle_editor_keys`. -/
def handle_editor_keys (ops : EditorOps) (a : App) (k : KeyEvent) : App :=
  if is_execute_key_combo k = true then
    if a.query_executing = false then execute_query a else a
  else
    let editorInput : App :=
      update_editor_scroll { a with sql_editor := ops.input k a.sql_editor }
    match k.code with
    | .Esc =>
      let pane :=
        if a.show_query_results = true ∨ a.current_view.isTableView = true
        then FocusedPane.Results else FocusedPane.Sidebar
      { a with focused_pane := pane }
    | .PageUp =>
      update_editor_scroll
        { a with sql_editor := Nat.iterate ops.moveUp DEFAULT_VISIBLE_ROWS a.sql_editor }
    | .PageDown =>
      update_editor_scroll
        { a with sql_editor := Nat.iterate ops.moveDown DEFAULT_VISIBLE_ROWS a.sql_editor }
    | .Home =>
      if k.modifiers.ctrl = true then
        { a with sql_editor := ops.moveTop a.sql_editor, editor_scroll_offset := 0 }
      else editorInput
    | .End =>
      if k.modifiers.ctrl = true then
        update_editor_scroll { a with sql_editor := ops.moveBottom a.sql_editor }
      else editorInput
    | .Up =>
      if k.modifiers = KeyModifiers.none ∧ a.sql_editor.cursor_row = 0 ∧
         a.query_history ≠ [] then
        navigate_history_up a
      else editorInput
    | .Down =>
      if k.modifiers = KeyModifiers.none ∧
         a.sql_editor.lines.length - 1 ≤ a.sql_editor.cursor_row ∧
         a.history_index.isSome = true then
        navigate_history_down a
      else editorInput
    | _ => editorInput

/-- `App::handle_key_events`: the global bindings (Ctrl-C, pane cycling,
jump-to-editor) and the per-pane dispatch. -/
def handle_key_events (ops : EditorOps) (a : App) (k : KeyEvent) : App :=
  if (k.code = .Char 'c' ∨ k.code = .Char 'C') ∧ k.modifiers = KeyModifiers.ctrlOnly then
    { a with running := false }
  else if k.code = .Tab then
    { a with focused_pane :=
        if k.modifiers.shift = true then a.focused_pane.prev else a.focused_pane.next }
  else if k.code = .BackTab then
    { a with focused_pane := a.focused_pane.prev }
  else if k.code = .Char ':' ∧ a.focused_pane ≠ FocusedPane.Editor then
    { a with focused_pane := FocusedPane.Editor }
  else
    match a.focused_pane with
    | .Editor => handle_editor_keys ops a k
    | .Sidebar => handle_sidebar_keys ops a k
    | .Results => handle_results_keys a k
    | .Stats => if k.code = .Char 'q' then { a with running := false } else a
    | .Logs => handle_logs_keys a k

/-!
## Spec-side definition: derivable tree paths

Used to state claim C2, which speaks about paths "derivable from the
current structure" independently of the open set.
-/

/-- Follows the spec's words (section 3, `TreeNodeId`): the set of paths
from Root to any node derivable from a structure snapshot. -/
def spec_all_paths (s : DatabaseStructure) : List (List TreeNodeId) :=
  [TreeNodeId.Root] ::
  s.schemas.flatMap (fun sc =>
    [TreeNodeId.Root, TreeNodeId.Schema sc.name] ::
    sc.tables.flatMap (fun t =>
      [TreeNodeId.Root, TreeNodeId.Schema sc.name, TreeNodeId.Table sc.name t.name] ::
      t.columns.map (fun c =>
        [TreeNodeId.Root, TreeNodeId.Schema sc.name,
         TreeNodeId.Table sc.name t.name,
         TreeNodeId.Column sc.name t.name c.name])))

/-!
## Concrete states for witnesses and counterexamples
-/

/-- A fresh `StatsState`, as `App::new` builds it. -/
def baseStats : StatsState :=
  { host := "localhost", database := "db", pg_version := "", table_count := 0,
    total_rows := 0, last_query_ms := none, queries_run := 0,
    queries_per_sec := [], rows_per_sec := [], latency_ms := [],
    connections := [], queries_this_second := 0, rows_this_second := 0 }

/-- A connected application in the table-list view with empty editor and
history: the state right after a successful `ConnectionResult`. -/
def baseApp : App :=
  { running := true, connection := ConnectionState.Connected "db",
    database_url := "postgres://u@h/db", current_view := CurrentView.TableList,
    tables := [], selected_table_index := 0, sidebar_scroll_offset := 0,
    stats_task_started := true, schema_task_started := true,
    focused_pane := FocusedPane.Results,
    sql_editor := textAreaNew [""], editor_scroll_offset := 0,
    query_history := [], history_index := none, saved_editor_content := none,
    query_executing := false, query_start_time := none, query_result := none,
    show_query_results := false, stats := baseStats, stats_scroll_offset := 0,
    logs_forwarded := [], db_structure := none, tree_selected := [],
    tree_opened := [], selected_table := none, spawned_fetches := [],
    spawned_queries := [], spawned_schema_refreshes := 0 }

/-- Projection of the current table-view state, if any. -/
def App.tableState (a : App) : Option TableViewState :=
  match a.current_view with
  | CurrentView.TableView st => some st
  | _ => none

set_option maxRecDepth 20000

/-- Shared trace: open table `t`. -/
def traceOpened : App := open_schema_table baseApp "public" "t"

/-- 50 rendered rows (a full first page of a 55-row table). -/
def rows50 : List (List String) := List.replicate 50 ["x"]

/-- 5 rendered rows (the last page of a 55-row table). -/
def rows5 : List (List String) := List.replicate 5 ["x"]

/-- Shared trace: page 0 of `t` arrives (50 of 55 rows). -/
def traceLoaded : App := handle_app_event traceOpened (AppEvent.TableDataLoaded
  (Except.ok { table_name := "t", columns := ["c"], rows := rows50,
               total_count := 55, page := 0 }))

/-- Shared trace: the user presses Right — page 1, loading, fetch issued. -/
def tracePage1 : App := handle_key_events inertEditorOps traceLoaded
  { code := KeyCode.Right, modifiers := KeyModifiers.none }

/-- C3 trace: while page 1 loads, its result arrives with identity
(t, 1) matching, but rows were deleted concurrently: total_count is now
10, so there is only one page. -/
def c3Final : App := handle_app_event tracePage1 (AppEvent.TableDataLoaded
  (Except.ok { table_name := "t", columns := ["c"], rows := rows5,
               total_count := 10, page := 1 }))

/-- C5 trace: while page 1 loads, the user presses Down 49 times on the
still-displayed previous page (selection 49, offset 35), then the
matching 5-row result for page 1 arrives and clamps the selection. -/
def c5Downs : App := Nat.iterate
  (fun a => handle_key_events inertEditorOps a
    { code := KeyCode.Down, modifiers := KeyModifiers.none }) 49 tracePage1

def c5Final : App := handle_app_event c5Downs (AppEvent.TableDataLoaded
  (Except.ok { table_name := "t", columns := ["c"], rows := rows5,
               total_count := 55, page := 1 }))

/-!
## Claim theorems
-/

/-- **C7.** `total_pages` returns 1 for an empty table and
`ceil(total_count / 50)` (computed here as `(n + 49) / 50`) for a
positive count, hence always at least 1.  The hypotheses are the valid
range of the `i64` field. -/
theorem C7_total_pages (s : TableViewState) (h0 : 0 ≤ s.total_count)
    (h1 : s.total_count < 2 ^ 63) :
    (s.total_count = 0 → s.total_pages = 1) ∧
    (0 < s.total_count →
      s.total_pages = (s.total_count.toNat + (PAGE_SIZE - 1)) / PAGE_SIZE) ∧
    1 ≤ s.total_pages := by
  have hmod : s.total_count % (2 ^ 64 : Int) = s.total_count :=
    Int.emod_eq_of_lt h0 (by omega)
  unfold TableViewState.total_pages totalPagesOfCount rustDivCeil i64AsUsize PAGE_SIZE
  rw [hmod]
  by_cases hc : s.total_count = 0
  · simp [hc]
  · have hn : 1 ≤ s.total_count.toNat := by omega
    rw [if_neg hc]
    refine ⟨fun h => absurd h hc, fun _ => ?_, ?_⟩
    · rcases Nat.eq_zero_or_pos (s.total_count.toNat % 50) with h | h
      · simp [h]; omega
      · rw [if_neg (by omega)]; omega
    · rcases Nat.eq_zero_or_pos (s.total_count.toNat % 50) with h | h
      · simp [h]; omega
      · rw [if_neg (by omega)]; omega

/-- C7 witness: a 120-row table has 3 pages. -/
theorem C7_total_pages_witness :
    (0 : Int) ≤ 120 ∧ (120 : Int) < 2 ^ 63 ∧
    ({ table_name := "t", columns := [], rows := [], total_count := 120,
       page := 0, selected_row := 0, scroll_offset := 0, loading := false,
       error := none } : TableViewState).total_pages = 3 := by
  refine ⟨by decide, by decide, ?_⟩
  have h := C7_total_pages
    { table_name := "t", columns := [], rows := [], total_count := 120,
      page := 0, selected_row := 0, scroll_offset := 0, loading := false,
      error := none } (by decide) (by decide)
  rw [h.2.1 (by decide)]; decide

/-- **C8.** The 5-pane focus ring: `next` applied five times is the
identity, and `next`/`prev` are mutually inverse. -/
theorem C8_focus_ring (p : FocusedPane) :
    p.next.next.next.next.next = p ∧ p.next.prev = p ∧ p.prev.next = p := by
  cases p <;> exact ⟨rfl, rfl, rfl⟩

/-- **C9.** A failed `QueryExecuted` replaces the query-result state with
an error-only state (empty columns/rows, zero counts, the message set)
and increments the cumulative query counter by exactly 1 — just as a
successful one does. -/
theorem C9_query_failure_replaces_and_counts (a : App) (e : String) :
    ((handle_app_event a (AppEvent.QueryExecuted (Except.error e))).query_result
      = some { columns := [], rows := [], row_count := 0, duration_ms := 0,
               is_explain := false, selected_row := 0, scroll_offset := 0,
               error := some e }) ∧
    ((handle_app_event a (AppEvent.QueryExecuted (Except.error e))).stats.queries_run
      = a.stats.queries_run + 1) ∧
    ∀ qr : QueryResult,
      (handle_app_event a (AppEvent.QueryExecuted (Except.ok qr))).stats.queries_run
        = a.stats.queries_run + 1 :=
  ⟨rfl, rfl, fun _ => rfl⟩

/-- **C10.** A failed `QueryExecuted` leaves every statistics field other
than the cumulative counter unchanged: latency, the per-second
accumulators, and all four sparkline series. -/
theorem C10_query_failure_frame (a : App) (e : String) :
    ((handle_app_event a (AppEvent.QueryExecuted (Except.error e))).stats.last_query_ms
      = a.stats.last_query_ms) ∧
    ((handle_app_event a (AppEvent.QueryExecuted (Except.error e))).stats.queries_this_second
      = a.stats.queries_this_second) ∧
    ((handle_app_event a (AppEvent.QueryExecuted (Except.error e))).stats.rows_this_second
      = a.stats.rows_this_second) ∧
    ((handle_app_event a (AppEvent.QueryExecuted (Except.error e))).stats.queries_per_sec
      = a.stats.queries_per_sec) ∧
    ((handle_app_event a (AppEvent.QueryExecuted (Except.error e))).stats.rows_per_sec
      = a.stats.rows_per_sec) ∧
    ((handle_app_event a (AppEvent.QueryExecuted (Except.error e))).stats.latency_ms
      = a.stats.latency_ms) ∧
    ((handle_app_event a (AppEvent.QueryExecuted (Except.error e))).stats.connections
      = a.stats.connections) :=
  ⟨rfl, rfl, rfl, rfl, rfl, rfl, rfl⟩

/-- The execute combination is one of Ctrl/Cmd/Shift+Enter, Ctrl+J, F5. -/
lemma execute_combo_code (k : KeyEvent) (h : is_execute_key_combo k = true) :
    k.code = KeyCode.Enter ∨ k.code = KeyCode.Char 'j' ∨
    k.code = KeyCode.Char 'J' ∨ k.code = KeyCode.F 5 := by
  unfold is_execute_key_combo at h
  rcases k with ⟨code, m⟩
  cases code <;> simp_all

/-- **C6.** With a query already executing, the execute-key combination
is a complete no-op: the application state (history, browse state,
snapshot, effect logs included) is unchanged and no second execution is
issued, whatever the editor widget does on other keys. -/
theorem C6_execute_while_executing_noop (ops : EditorOps) (a : App) (k : KeyEvent)
    (hpane : a.focused_pane = FocusedPane.Editor)
    (hexec : a.query_executing = true)
    (hcombo : is_execute_key_combo k = true) :
    handle_key_events ops a k = a := by
  rcases execute_combo_code k hcombo with h | h | h | h <;>
    simp [handle_key_events, handle_editor_keys, h, hpane, hcombo, hexec]

/-- The C6 witness state: executing, editor focused. -/
def c6App : App :=
  { baseApp with focused_pane := FocusedPane.Editor, query_executing := true,
                 query_start_time := some () }

/-- C6 witness: pressing F5 in that state changes nothing. -/
theorem C6_execute_while_executing_noop_witness :
    c6App.focused_pane = FocusedPane.Editor ∧
    c6App.query_executing = true ∧
    is_execute_key_combo { code := KeyCode.F 5, modifiers := KeyModifiers.none } = true ∧
    handle_key_events inertEditorOps c6App
      { code := KeyCode.F 5, modifiers := KeyModifiers.none } = c6App :=
  ⟨rfl, rfl, rfl, C6_execute_while_executing_noop inertEditorOps c6App
    { code := KeyCode.F 5, modifiers := KeyModifiers.none } rfl rfl rfl⟩

/-- The table-view state after a failed page fetch is applied: only the
loading flag and the error message change. -/
def errApplied (st : TableViewState) (e : String) : TableViewState :=
  { st with loading := false, error := some e }

/-- **C1 (amended).**  A *successful* page-fetch result whose
(table, page) identity does not match the current view leaves the whole
application state unchanged; a *failed* result, which carries no identity
at all, is always applied to the current table view, setting only
`loading := false` and the error message. -/
theorem C1_stale_result_rejection (a : App) (st : TableViewState)
    (data : TableDataResult)
    (hv : a.current_view = CurrentView.TableView st)
    (hmis : ¬ (st.table_name = data.table_name ∧ st.page = data.page)) :
    handle_app_event a (AppEvent.TableDataLoaded (Except.ok data)) = a ∧
    ∀ e, handle_app_event a (AppEvent.TableDataLoaded (Except.error e))
      = { a with current_view := CurrentView.TableView (errApplied st e) } := by
  constructor
  · simp [handle_app_event, handle_table_data_loaded, hv, hmis]
  · intro e
    simp [handle_app_event, handle_table_data_loaded, hv, errApplied]

/-- The C1 witness state: viewing table `b`, page 1. -/
def c1State : TableViewState :=
  { table_name := "b", columns := ["c"], rows := [["1"]], total_count := 1,
    page := 1, selected_row := 0, scroll_offset := 0, loading := true,
    error := none }

def c1App : App := { baseApp with current_view := CurrentView.TableView c1State }

/-- A stale successful result: same table, different page. -/
def c1Data : TableDataResult :=
  { table_name := "b", columns := ["c"], rows := [["2"]], total_count := 1,
    page := 0 }

/-- C1 witness: the mismatched success is discarded unchanged, and a
failure is applied to the current view. -/
theorem C1_stale_result_rejection_witness :
    c1App.current_view = CurrentView.TableView c1State ∧
    ¬ (c1State.table_name = c1Data.table_name ∧ c1State.page = c1Data.page) ∧
    handle_app_event c1App (AppEvent.TableDataLoaded (Except.ok c1Data)) = c1App ∧
    handle_app_event c1App (AppEvent.TableDataLoaded (Except.error "boom"))
      = { c1App with current_view := CurrentView.TableView (errApplied c1State "boom") } :=
  ⟨rfl, by decide,
   (C1_stale_result_rejection c1App c1State c1Data rfl (by decide)).1,
   (C1_stale_result_rejection c1App c1State c1Data rfl (by decide)).2 "boom"⟩

/-- C1 counterexample: the claim says a result whose identity does not
match "is discarded and leaves the view state completely unchanged", for
failed results too — but a failed `TableDataLoaded`, which cannot match
any identity (it carries none), still mutates the view of table `b`. -/
theorem C1_stale_result_rejection_counterexample :
    handle_app_event c1App (AppEvent.TableDataLoaded (Except.error "boom")) ≠ c1App := by
  decide

/-- `Iterator::position` only returns indices inside the list. -/
lemma listPosition_lt_length {α : Type} (p : α → Bool) :
    ∀ (l : List α) (i : Nat), listPosition p l = some i → i < l.length := by
  intro l
  induction l with
  | nil => intro i h; simp [listPosition] at h
  | cons x xs ih =>
    intro i h
    by_cases hp : p x = true
    · simp [listPosition, hp] at h
      simp
      omega
    · simp [listPosition, hp] at h
      rcases h with ⟨j, hj, rfl⟩
      have := ih j hj
      simp
      omega

/-- A successful index lookup yields a member of the list. -/
lemma mem_of_lookup {α : Type} :
    ∀ (l : List α) (n : Nat) (x : α), l[n]? = some x → x ∈ l := by
  intro l
  induction l with
  | nil => intro n x h; simp at h
  | cons y ys ih =>
    intro n x h
    cases n with
    | zero => simp at h; simp [h]
    | succ m =>
      simp at h
      exact List.mem_cons_of_mem y (ih m x h)

/-- **C2 (amended).**  A structure refresh never changes a non-empty tree
selection — in particular a still-existing selected path stays selected,
but a vanished one is *not* remapped to its nearest ancestor; it simply
goes stale.  Navigation is nonetheless safe: whenever the visible list is
non-empty, `tree_navigate` lands on a path of that list (a missing
current selection counts as position 0), so a vanished path can never
make navigation select outside the tree or crash. -/
theorem C2_selection_survives_refresh :
    (∀ (a : App) (s : DatabaseStructure), a.tree_selected ≠ [] →
      (handle_schema_loaded a s).tree_selected = a.tree_selected) ∧
    (∀ (a : App) (delta : Int), get_visible_tree_paths a ≠ [] →
      (tree_navigate a delta).tree_selected ∈ get_visible_tree_paths a) := by
  constructor
  · intro a s h
    simp only [handle_schema_loaded]
    simp [h]
    split <;> rfl
  · intro a delta h
    have hlen : 0 < (get_visible_tree_paths a).length := List.length_pos.mpr h
    have hcurlt :
        (listPosition (fun p => decide (p = a.tree_selected))
          (get_visible_tree_paths a)).getD 0 < (get_visible_tree_paths a).length := by
      cases hpos : listPosition (fun p => decide (p = a.tree_selected))
          (get_visible_tree_paths a) with
      | none => simpa using hlen
      | some i =>
        simpa using listPosition_lt_length _ (get_visible_tree_paths a) i hpos
    have hidx : tree_nav_index
        ((listPosition (fun p => decide (p = a.tree_selected))
          (get_visible_tree_paths a)).getD 0)
        (get_visible_tree_paths a).length delta < (get_visible_tree_paths a).length := by
      unfold tree_nav_index
      split <;> omega
    unfold tree_navigate
    rw [if_neg h, List.getElem?_eq_getElem hidx]
    simp [List.getElem_mem hidx]

/-- The C2 witness state: structure with one table, everything open, the
table selected. -/
def c2Struct : DatabaseStructure :=
  { schemas := [{ name := "public", tables := [{ name := "t", columns := [] }] }] }

def c2Path : List TreeNodeId :=
  [TreeNodeId.Root, TreeNodeId.Schema "public", TreeNodeId.Table "public" "t"]

def c2App : App :=
  { baseApp with db_structure := some c2Struct,
                 tree_selected := c2Path,
                 tree_opened := [[TreeNodeId.Root],
                                 [TreeNodeId.Root, TreeNodeId.Schema "public"]] }

/-- The refreshed structure: table `t` has been dropped. -/
def c2StructAfter : DatabaseStructure :=
  { schemas := [{ name := "public", tables := [] }] }

/-- C2 witness: refreshing with the same structure keeps the selection,
and navigating down from it lands on a visible path. -/
theorem C2_selection_survives_refresh_witness :
    c2App.tree_selected ≠ [] ∧
    (handle_schema_loaded c2App c2Struct).tree_selected = c2App.tree_selected ∧
    get_visible_tree_paths c2App ≠ [] ∧
    (tree_navigate c2App 1).tree_selected ∈ get_visible_tree_paths c2App :=
  ⟨by decide, C2_selection_survives_refresh.1 c2App c2Struct (by decide),
   by decide, C2_selection_survives_refresh.2 c2App 1 (by decide)⟩

/-- C2 counterexample: after a refresh that dropped table `t`, the claim
says the selection "becomes the nearest ancestor of that path that is
still present" — but the selection is not any path of the new structure
at all (it stays the stale table path), even though the nearest ancestor
(the `public` schema) is present. -/
theorem C2_selection_survives_refresh_counterexample :
    (handle_schema_loaded c2App c2StructAfter).tree_selected ∉
      spec_all_paths c2StructAfter ∧
    [TreeNodeId.Root, TreeNodeId.Schema "public"] ∈ spec_all_paths c2StructAfter := by
  constructor
  · decide
  · decide

/-- List navigation does not touch the page. -/
lemma nav_rows_page (st : TableViewState) (c : KeyCode) :
    (nav_rows st c).page = st.page := by
  unfold nav_rows; split <;> rfl

/-- List navigation does not touch the total count. -/
lemma nav_rows_total_count (st : TableViewState) (c : KeyCode) :
    (nav_rows st c).total_count = st.total_count := by
  unfold nav_rows; split <;> rfl

/-- A left page turn keeps the page below the page count. -/
lemma page_left_step_bound (st : TableViewState) (h : st.page < st.total_pages) :
    (page_left_step st).1.page < (page_left_step st).1.total_pages := by
  unfold page_left_step
  unfold TableViewState.total_pages at h ⊢
  split_ifs with hg
  · simp only []
    omega
  · exact h

/-- A right page turn keeps the page below the page count. -/
lemma page_right_step_bound (st : TableViewState) (h : st.page < st.total_pages) :
    (page_right_step st).1.page < (page_right_step st).1.total_pages := by
  unfold page_right_step
  unfold TableViewState.total_pages at h ⊢
  split_ifs with hg
  · simp only []
    unfold TableViewState.total_pages at hg
    omega
  · exact h

/-- The whole table-view key step keeps the page below the page count. -/
lemma results_table_step_bound (st : TableViewState) (c : KeyCode)
    (h : st.page < st.total_pages) :
    (results_table_step st c).1.page < (results_table_step st c).1.total_pages := by
  have hnav : (nav_rows st c).page < (nav_rows st c).total_pages := by
    unfold TableViewState.total_pages
    rw [nav_rows_page, nav_rows_total_count]
    exact h
  cases c <;> simp only [results_table_step]
  case Left => exact page_left_step_bound _ hnav
  case Right => exact page_right_step_bound _ hnav
  case Char ch =>
    split_ifs with h1 h2
    · exact page_left_step_bound _ hnav
    · exact page_right_step_bound _ hnav
    · exact hnav
  all_goals exact hnav

/-- The table-view state after a matching successful page fetch with
final selection `sel`. -/
def okApplied (st : TableViewState) (data : TableDataResult) (sel : Nat) :
    TableViewState :=
  { st with columns := data.columns, rows := data.rows,
            total_count := data.total_count, loading := false, error := none,
            selected_row := sel }

/-- A successful `TableDataLoaded` either leaves the view untouched or —
when the identity matches — applies the payload with some final
selection. -/
lemma handle_table_data_loaded_ok_view (a : App) (st : TableViewState)
    (data : TableDataResult)
    (hv : a.current_view = CurrentView.TableView st) :
    (handle_table_data_loaded a (Except.ok data)).current_view = a.current_view ∨
    ((st.table_name = data.table_name ∧ st.page = data.page) ∧
     ∃ sel, (handle_table_data_loaded a (Except.ok data)).current_view =
       CurrentView.TableView (okApplied st data sel)) := by
  unfold handle_table_data_loaded okApplied
  rw [hv]
  simp only []
  split_ifs with hid hclamp
  · right
    exact ⟨hid, data.rows.length - 1, rfl⟩
  · right
    exact ⟨hid, st.selected_row, rfl⟩
  · left
    exact hv

/-- A failed `TableDataLoaded` always sets the error on the current view. -/
lemma handle_table_data_loaded_err_view (a : App) (st : TableViewState) (e : String)
    (hv : a.current_view = CurrentView.TableView st) :
    (handle_table_data_loaded a (Except.error e)).current_view
      = CurrentView.TableView (errApplied st e) := by
  unfold handle_table_data_loaded errApplied
  rw [hv]

/-- The results-pane key handler leaves the view either unchanged, reset
to the table list, or stepped by `results_table_step`. -/
lemma handle_results_keys_view (a : App) (k : KeyEvent) (st : TableViewState)
    (hv : a.current_view = CurrentView.TableView st) :
    (handle_results_keys a k).current_view = CurrentView.TableView st ∨
    (handle_results_keys a k).current_view = CurrentView.TableList ∨
    (handle_results_keys a k).current_view =
      CurrentView.TableView (results_table_step st k.code).1 := by
  unfold handle_results_keys
  split_ifs with h1 h2 h3 h4
  · exact Or.inl hv
  · exact Or.inr (Or.inl rfl)
  · exact Or.inl hv
  · left
    cases hqr : a.query_result with
    | none => exact hv
    | some qr => split <;> (try split) <;> simpa using hv
  · rw [hv]
    right; right
    cases hf : (results_table_step st k.code).2 with
    | none => simp [hf]
    | some tp =>
      rcases tp with ⟨tn, pg⟩
      simp only [hf]
      unfold fetch_table_data
      cases a.connection <;> rfl

/-- **C3 (amended).**  The page-bound invariant `page < total_pages` is
preserved by every results-pane key, and by a `TableDataLoaded` event
provided any applied successful payload still has enough rows to cover
the current page (`page < total_pages(new count)`).  The unamended
claim fails when an applied result lowers `total_count` below the
current page — see the counterexample. -/
theorem C3_page_bounds :
    (∀ (a : App) (k : KeyEvent) (st st' : TableViewState),
      a.current_view = CurrentView.TableView st →
      st.page < st.total_pages →
      (handle_results_keys a k).current_view = CurrentView.TableView st' →
      st'.page < st'.total_pages) ∧
    (∀ (a : App) (result : Except String TableDataResult) (st st' : TableViewState),
      a.current_view = CurrentView.TableView st →
      st.page < st.total_pages →
      (∀ data, result = Except.ok data →
        st.page < totalPagesOfCount data.total_count) →
      (handle_app_event a (AppEvent.TableDataLoaded result)).current_view
        = CurrentView.TableView st' →
      st'.page < st'.total_pages) := by
  constructor
  · intro a k st st' hv h hv'
    rcases handle_results_keys_view a k st hv with hc | hc | hc <;> rw [hc] at hv'
    · cases hv'
      exact h
    · cases hv'
    · cases hv'
      exact results_table_step_bound st k.code h
  · intro a result st st' hv h hok hv'
    cases result with
    | ok data =>
      rcases handle_table_data_loaded_ok_view a st data hv with hc | ⟨hid, sel, hc⟩
      · rw [show handle_app_event a (AppEvent.TableDataLoaded (Except.ok data))
            = handle_table_data_loaded a (Except.ok data) from rfl] at hv'
        rw [hc, hv] at hv'
        cases hv'
        exact h
      · rw [show handle_app_event a (AppEvent.TableDataLoaded (Except.ok data))
            = handle_table_data_loaded a (Except.ok data) from rfl] at hv'
        rw [hc] at hv'
        cases hv'
        simpa [okApplied, TableViewState.total_pages] using hok data rfl
    | error e =>
      rw [show handle_app_event a (AppEvent.TableDataLoaded (Except.error e))
          = handle_table_data_loaded a (Except.error e) from rfl] at hv'
      rw [handle_table_data_loaded_err_view a st e hv] at hv'
      cases hv'
      simpa [errApplied, TableViewState.total_pages] using h

/-- The loaded first page of the 55-row table, as `traceLoaded` shows it. -/
def c3WState : TableViewState :=
  { table_name := "t", columns := ["c"], rows := rows50, total_count := 55,
    page := 0, selected_row := 0, scroll_offset := 0, loading := false,
    error := none }

/-- The state after the Right page turn. -/
def c3WStateB : TableViewState :=
  { c3WState with page := 1, loading := true, selected_row := 0, scroll_offset := 0 }

/-- A matching refresh of page 0 with a count that still covers it. -/
def c3WData : TableDataResult :=
  { table_name := "t", columns := ["c"], rows := rows50, total_count := 60,
    page := 0 }

/-- C3 witness: both parts of the amended theorem at the 55-row trace. -/
theorem C3_page_bounds_witness :
    traceLoaded.current_view = CurrentView.TableView c3WState ∧
    c3WState.page < c3WState.total_pages ∧
    ((handle_results_keys traceLoaded
        { code := KeyCode.Right, modifiers := KeyModifiers.none }).current_view
      = CurrentView.TableView c3WStateB) ∧
    c3WStateB.page < c3WStateB.total_pages ∧
    ((handle_app_event traceLoaded
        (AppEvent.TableDataLoaded (Except.ok c3WData))).current_view
      = CurrentView.TableView (okApplied c3WState c3WData 0)) ∧
    (okApplied c3WState c3WData 0).page < (okApplied c3WState c3WData 0).total_pages :=
  ⟨by decide, by decide, by decide,
   C3_page_bounds.1 traceLoaded
     { code := KeyCode.Right, modifiers := KeyModifiers.none }
     c3WState c3WStateB (by decide) (by decide) (by decide),
   by decide,
   C3_page_bounds.2 traceLoaded (Except.ok c3WData) c3WState
     (okApplied c3WState c3WData 0) (by decide) (by decide)
     (by intro d hd; cases hd; decide) (by decide)⟩

/-- C3 counterexample: in the reachable trace `c3Final` — open `t`
(55 rows), turn to page 1, then apply the matching fetch result whose
fresh count is only 10 — the page index is 1 but `total_pages` is 1, so
`page ∈ [0, total_pages)` is violated after an applied page-fetch result
that lowers the count. -/
theorem C3_page_bounds_counterexample :
    (App.tableState c3Final).map (fun st => st.page) = some 1 ∧
    (App.tableState c3Final).map (fun st => st.total_pages) = some 1 ∧
    (App.tableState c3Final).map (fun st => decide (st.page < st.total_pages))
      = some false :=
  ⟨by decide, by decide, by decide⟩

lemma scroll_adjust_window (sel off : Nat) :
    scroll_adjust sel off ≤ sel ∧ sel < scroll_adjust sel off + DEFAULT_VISIBLE_ROWS := by
  unfold scroll_adjust DEFAULT_VISIBLE_ROWS
  split_ifs <;> omega

def isListNavKey : KeyCode → Bool
  | .Up | .Down | .PageUp | .PageDown | .Home | .End => true
  | .Char c => c = 'k' ∨ c = 'j'
  | _ => false

lemma handle_list_navigation_window (code : KeyCode) (sel off len : Nat)
    (_hlen : 1 ≤ len) (hk : isListNavKey code = true) :
    (handle_list_navigation code sel off len).2 ≤ (handle_list_navigation code sel off len).1 ∧
    (handle_list_navigation code sel off len).1
      < (handle_list_navigation code sel off len).2 + DEFAULT_VISIBLE_ROWS := by
  cases code <;> simp [isListNavKey] at hk <;>
    simp only [handle_list_navigation, list_nav_step]
  case Up => exact scroll_adjust_window _ _
  case Down => exact scroll_adjust_window _ _
  case PageUp => exact scroll_adjust_window _ _
  case PageDown => exact scroll_adjust_window _ _
  case Home => exact scroll_adjust_window _ _
  case End => exact scroll_adjust_window _ _
  case Char c =>
    rcases hk with rfl | rfl
    · rw [if_pos rfl]
      exact scroll_adjust_window _ _
    · rw [if_neg (by decide), if_pos rfl]
      exact scroll_adjust_window _ _

lemma tv_ensure_eq_adjust (s : TableViewState) :
    (s.ensure_visible DEFAULT_VISIBLE_ROWS).selected_row = s.selected_row ∧
    (s.ensure_visible DEFAULT_VISIBLE_ROWS).scroll_offset
      = scroll_adjust s.selected_row s.scroll_offset := by
  unfold TableViewState.ensure_visible scroll_adjust DEFAULT_VISIBLE_ROWS
  split_ifs <;> simp_all
  all_goals rw [if_neg (by omega)]
  all_goals exact ⟨rfl, rfl⟩

lemma qr_ensure_eq_adjust (s : QueryResultState) :
    (s.ensure_visible DEFAULT_VISIBLE_ROWS).selected_row = s.selected_row ∧
    (s.ensure_visible DEFAULT_VISIBLE_ROWS).scroll_offset
      = scroll_adjust s.selected_row s.scroll_offset := by
  unfold QueryResultState.ensure_visible scroll_adjust DEFAULT_VISIBLE_ROWS
  split_ifs <;> simp_all
  all_goals rw [if_neg (by omega)]
  all_goals exact ⟨rfl, rfl⟩


/-- **C5 (amended).**  The scroll-window invariant `O ≤ S < O + 15`
holds after every list-navigation key and after every mouse scroll, on
both the query-results list and the table view.  (It does *not* survive
an applied page-fetch result that clamps the selection — see the
counterexample.) -/
theorem C5_scroll_window :
    (∀ (code : KeyCode) (sel off len : Nat), 1 ≤ len → isListNavKey code = true →
      (handle_list_navigation code sel off len).2
        ≤ (handle_list_navigation code sel off len).1 ∧
      (handle_list_navigation code sel off len).1
        < (handle_list_navigation code sel off len).2 + DEFAULT_VISIBLE_ROWS) ∧
    (∀ (a : App) (delta : Int) (st st' : TableViewState),
      a.show_query_results = false → a.current_view = CurrentView.TableView st →
      st.rows ≠ [] →
      (scroll_results a delta).current_view = CurrentView.TableView st' →
      st'.scroll_offset ≤ st'.selected_row ∧
      st'.selected_row < st'.scroll_offset + DEFAULT_VISIBLE_ROWS) ∧
    (∀ (a : App) (delta : Int) (qr qr' : QueryResultState),
      a.show_query_results = true → a.query_result = some qr →
      qr.rows ≠ [] →
      (scroll_results a delta).query_result = some qr' →
      qr'.scroll_offset ≤ qr'.selected_row ∧
      qr'.selected_row < qr'.scroll_offset + DEFAULT_VISIBLE_ROWS) := by
  refine ⟨fun code sel off len hlen hk => handle_list_navigation_window code sel off len hlen hk, ?_, ?_⟩
  · intro a delta st st' hshow hv hrows hv'
    unfold scroll_results at hv'
    rw [if_neg (by simp [hshow]), hv] at hv'
    dsimp only [] at hv'
    rw [if_pos hrows] at hv'
    dsimp only [] at hv'
    cases hv'
    obtain ⟨he1, he2⟩ := tv_ensure_eq_adjust
      { st with selected_row := if delta < 0 then st.selected_row - delta.natAbs
                else min (st.selected_row + delta.natAbs) (st.rows.length - 1) }
    rw [he1, he2]
    exact scroll_adjust_window _ _
  · intro a delta qr qr' hshow hqr hrows hqr'
    unfold scroll_results at hqr'
    rw [if_pos hshow, hqr] at hqr'
    dsimp only [] at hqr'
    rw [if_pos hrows] at hqr'
    dsimp only [] at hqr'
    cases hqr'
    obtain ⟨he1, he2⟩ := qr_ensure_eq_adjust
      { qr with selected_row := if delta < 0 then qr.selected_row - delta.natAbs
                else min (qr.selected_row + delta.natAbs) (qr.rows.length - 1) }
    rw [he1, he2]
    exact scroll_adjust_window _ _


/-- The table view after mouse-scrolling down by 3 from `traceLoaded`. -/
def c5WStateB : TableViewState := { c3WState with selected_row := 3 }

/-- A two-row query-result state with the second row selected. -/
def c5WQr : QueryResultState :=
  { columns := ["c"], rows := [["1"], ["2"]], row_count := 2, duration_ms := 1,
    is_explain := false, selected_row := 1, scroll_offset := 0, error := none }

def c5WQrApp : App :=
  { baseApp with show_query_results := true, query_result := some c5WQr }

/-- The query-result state after mouse-scrolling up by 1. -/
def c5WQrB : QueryResultState := { c5WQr with selected_row := 0 }

/-- C5 witness: all three parts at concrete inputs — the Down key on a
50-row list, a mouse scroll on the loaded table view, and a mouse scroll
on a query-result list. -/
theorem C5_scroll_window_witness :
    ((1 ≤ 50 ∧ isListNavKey KeyCode.Down = true) ∧
      (handle_list_navigation KeyCode.Down 0 0 50).2
        ≤ (handle_list_navigation KeyCode.Down 0 0 50).1 ∧
      (handle_list_navigation KeyCode.Down 0 0 50).1
        < (handle_list_navigation KeyCode.Down 0 0 50).2 + DEFAULT_VISIBLE_ROWS) ∧
    ((scroll_results traceLoaded 3).current_view = CurrentView.TableView c5WStateB ∧
      c5WStateB.scroll_offset ≤ c5WStateB.selected_row ∧
      c5WStateB.selected_row < c5WStateB.scroll_offset + DEFAULT_VISIBLE_ROWS) ∧
    ((scroll_results c5WQrApp (-1)).query_result = some c5WQrB ∧
      c5WQrB.scroll_offset ≤ c5WQrB.selected_row ∧
      c5WQrB.selected_row < c5WQrB.scroll_offset + DEFAULT_VISIBLE_ROWS) :=
  ⟨⟨⟨by decide, by decide⟩,
    C5_scroll_window.1 KeyCode.Down 0 0 50 (by decide) (by decide)⟩,
   ⟨by decide,
    C5_scroll_window.2.1 traceLoaded 3 c3WState c5WStateB rfl (by decide)
      (by decide) (by decide)⟩,
   ⟨by decide,
    C5_scroll_window.2.2 c5WQrApp (-1) c5WQr c5WQrB rfl rfl
      (by decide) (by decide)⟩⟩

/-- C5 counterexample: in the reachable trace `c5Final` — open `t`, turn
to page 1, press Down 49 times while it loads (selection 49, offset 35),
then apply the matching 5-row result — the clamped selection is 4 but
the scroll offset stays 35, so `O ≤ S` fails after an applied page-fetch
result. -/
theorem C5_scroll_window_counterexample :
    (App.tableState c5Final).map (fun st => st.selected_row) = some 4 ∧
    (App.tableState c5Final).map (fun st => st.scroll_offset) = some 35 ∧
    (App.tableState c5Final).map
      (fun st => decide (st.scroll_offset ≤ st.selected_row)) = some false :=
  ⟨by decide, by decide, by decide⟩


lemma navigate_history_up_start (b : App) (hne : b.query_history ≠ [])
    (hidx : b.history_index = none) :
    (navigate_history_up b).history_index = some 0 ∧
    (navigate_history_up b).saved_editor_content = some (joinLines b.sql_editor.lines) ∧
    (navigate_history_up b).query_history = b.query_history := by
  simp only [navigate_history_up, hne, hidx, ite_true]
  repeat' split
  all_goals simp_all

lemma navigate_history_up_step (b : App) (i : Nat) (hne : b.query_history ≠ [])
    (hidx : b.history_index = some i) :
    (navigate_history_up b).history_index
      = some (min (i + 1) (b.query_history.length - 1)) ∧
    (navigate_history_up b).saved_editor_content = b.saved_editor_content ∧
    (navigate_history_up b).query_history = b.query_history := by
  simp only [navigate_history_up, hne, hidx, ite_true]
  repeat' split
  all_goals simp_all

lemma nav_up_iter (a : App) (n : Nat) (hn1 : 1 ≤ n)
    (hidx : a.history_index = none) (hne : a.query_history ≠ [])
    (hn2 : n ≤ a.query_history.length) :
    (navigate_history_up^[n] a).history_index = some (n - 1) ∧
    (navigate_history_up^[n] a).saved_editor_content
      = some (joinLines a.sql_editor.lines) ∧
    (navigate_history_up^[n] a).query_history = a.query_history := by
  induction n with
  | zero => omega
  | succ m ih =>
    cases Nat.eq_zero_or_pos m with
    | inl h0 =>
      subst h0
      rw [Function.iterate_one]
      exact navigate_history_up_start a hne hidx
    | inr hm =>
      rw [Function.iterate_succ_apply']
      obtain ⟨h1, h2, h3⟩ := ih hm (by omega)
      have hne2 : (navigate_history_up^[m] a).query_history ≠ [] := by
        rw [h3]; exact hne
      obtain ⟨g1, g2, g3⟩ := navigate_history_up_step _ (m - 1) hne2 h1
      refine ⟨?_, ?_, ?_⟩
      · rw [g1, h3]
        congr 1
        omega
      · rw [g2, h2]
      · rw [g3, h3]

lemma navigate_history_down_exit (b : App) (T : String)
    (hidx : b.history_index = some 0) (hs : b.saved_editor_content = some T) :
    (navigate_history_down b).history_index = none ∧
    (navigate_history_down b).saved_editor_content = none ∧
    (navigate_history_down b).sql_editor = textAreaNew (rustLines T) ∧
    (navigate_history_down b).query_history = b.query_history := by
  simp only [navigate_history_down, hidx, hs]
  simp_all

lemma navigate_history_down_step (b : App) (i : Nat)
    (hidx : b.history_index = some (i + 1)) :
    (navigate_history_down b).history_index = some i ∧
    (navigate_history_down b).saved_editor_content = b.saved_editor_content ∧
    (navigate_history_down b).query_history = b.query_history := by
  simp only [navigate_history_down, hidx]
  repeat' split
  all_goals simp_all

lemma nav_down_iter (b : App) (m : Nat) (T : String)
    (hidx : b.history_index = some m) (hs : b.saved_editor_content = some T) :
    (navigate_history_down^[m + 1] b).history_index = none ∧
    (navigate_history_down^[m + 1] b).saved_editor_content = none ∧
    (navigate_history_down^[m + 1] b).sql_editor = textAreaNew (rustLines T) ∧
    (navigate_history_down^[m + 1] b).query_history = b.query_history := by
  induction m generalizing b with
  | zero =>
    rw [Function.iterate_one]
    exact navigate_history_down_exit b T hidx hs
  | succ k ih =>
    rw [Function.iterate_succ_apply]
    obtain ⟨g1, g2, g3⟩ := navigate_history_down_step b k hidx
    obtain ⟨d1, d2, d3, d4⟩ := ih (navigate_history_down b) g1 (by rw [g2, hs])
    exact ⟨d1, d2, d3, by rw [d4, g3]⟩

/-- **C4 (amended).**  Browsing up N times then down N times (N at most
the history length, starting outside browse mode) restores the original
editor text and exits browse mode — *provided* the editor text survives
the join/split line round trip, i.e. its last line is not an empty
trailing line.  (A trailing empty line is lost — see the
counterexample.) -/
theorem C4_history_round_trip (a : App) (N : Nat)
    (hidx : a.history_index = none)
    (hN1 : 1 ≤ N) (hN2 : N ≤ a.query_history.length)
    (hlines : a.sql_editor.lines ≠ [])
    (hrt : rustLines (joinLines a.sql_editor.lines) = a.sql_editor.lines) :
    (navigate_history_down^[N] (navigate_history_up^[N] a)).sql_editor.lines
      = a.sql_editor.lines ∧
    (navigate_history_down^[N] (navigate_history_up^[N] a)).history_index = none ∧
    (navigate_history_down^[N] (navigate_history_up^[N] a)).saved_editor_content
      = none ∧
    (navigate_history_down^[N] (navigate_history_up^[N] a)).query_history
      = a.query_history := by
  have hne : a.query_history ≠ [] := by
    intro h
    rw [h] at hN2
    simp at hN2
    omega
  obtain ⟨u1, u2, u3⟩ := nav_up_iter a N hN1 hidx hne hN2
  have hNeq : N = (N - 1) + 1 := by omega
  have hrw : navigate_history_down^[N] (navigate_history_up^[N] a)
      = navigate_history_down^[(N - 1) + 1] (navigate_history_up^[N] a) := by
    rw [← hNeq]
  obtain ⟨d1, d2, d3, d4⟩ := nav_down_iter (navigate_history_up^[N] a) (N - 1)
    (joinLines a.sql_editor.lines) (by rw [u1]) u2
  rw [hrw]
  refine ⟨?_, d1, d2, by rw [d4, u3]⟩
  rw [d3, hrt]
  simp [textAreaNew, hlines]

/-- The C4 witness state: editor holding `SELECT 2`, one history entry. -/
def c4WApp : App :=
  { baseApp with
      sql_editor := { lines := ["SELECT 2"], cursor_row := 0, cursor_col := 0 },
      query_history := ["SELECT 1"] }

/-- C4 witness: one browse-up then one browse-down restores the editor
and leaves browse mode. -/
theorem C4_history_round_trip_witness :
    c4WApp.history_index = none ∧ 1 ≤ (1 : Nat) ∧
    1 ≤ c4WApp.query_history.length ∧
    c4WApp.sql_editor.lines ≠ [] ∧
    rustLines (joinLines c4WApp.sql_editor.lines) = c4WApp.sql_editor.lines ∧
    ((navigate_history_down^[1] (navigate_history_up^[1] c4WApp)).sql_editor.lines
      = c4WApp.sql_editor.lines ∧
     (navigate_history_down^[1] (navigate_history_up^[1] c4WApp)).history_index = none ∧
     (navigate_history_down^[1] (navigate_history_up^[1] c4WApp)).saved_editor_content
       = none ∧
     (navigate_history_down^[1] (navigate_history_up^[1] c4WApp)).query_history
       = c4WApp.query_history) :=
  ⟨rfl, by decide, by decide, by decide, by decide,
   C4_history_round_trip c4WApp 1 rfl (by decide) (by decide) (by decide) (by decide)⟩

/-- The C4 counterexample state: the editor holds `a` followed by an
empty trailing line (text `a\n`), one history entry. -/
def c4CexApp : App :=
  { baseApp with
      sql_editor := { lines := ["a", ""], cursor_row := 1, cursor_col := 0 },
      query_history := ["SELECT 1"] }

/-- C4 counterexample: for N = 1 ≤ history length, from outside browse
mode, up-then-down does **not** restore the original editor text — the
snapshot is joined with newlines and re-split on restore, which drops
the trailing empty line (`["a", ""]` comes back as `["a"]`). -/
theorem C4_history_round_trip_counterexample :
    c4CexApp.history_index = none ∧
    1 ≤ c4CexApp.query_history.length ∧
    (navigate_history_down (navigate_history_up c4CexApp)).sql_editor.lines
      ≠ c4CexApp.sql_editor.lines :=
  ⟨rfl, by decide, by decide⟩

end LazyDB
